import Mathlib

/-!
Verification development for the BillDesk payment-gateway integration
(`services/billDeskService.js` and its second, official-JOSE variant of the
same module). JavaScript strings and buffers are modelled as lists of
naturals (`Bytes`); JSON objects as Lean structures with `Option` fields
(`none` models an absent/undefined field); thrown exceptions as `Except`;
the MongoDB transaction collection as an explicit `Store` value threaded
through the functions; `Date.now()` as an explicit `now : Nat` parameter.
The compact JOSE serialisation (base64url segments joined by dots) is
modelled as an injective length-prefixed framing with an exact decoder,
mirroring the unambiguous `split` on dots of the source.
-/

namespace BillDesk

/-- A JavaScript string/Buffer, as its list of character codes. -/
abbrev Bytes := List Nat

/-- Length-prefixed framing of a byte segment. -/
def frame (b : Bytes) : Bytes := b.length :: b

/-- Exact inverse of `frame`: reads one framed segment, returns it and the rest. -/
def unframe (b : Bytes) : Option (Bytes × Bytes) :=
  match b with
  | [] => none
  | n :: rest => if n ≤ rest.length then some (rest.take n, rest.drop n) else none

/-- String to character codes (models Buffer.from(s, "utf8")). -/
def strBytes (s : String) : Bytes := s.data.map Char.toNat

/-- Character codes back to a string (models buf.toString("utf8")). -/
def bytesStr (b : Bytes) : String := String.mk (b.map Char.ofNat)

/-- Framed string segment. -/
def encStr (s : String) : Bytes := frame (strBytes s)

/-- Inverse of `encStr`. -/
def decStr (b : Bytes) : Option (String × Bytes) :=
  (unframe b).map (fun p => (bytesStr p.1, p.2))

/-- Modelled from the spec: the fixed hash function at the base of the key
derivation and keyed-hash message authentication (SHA-256/HMAC-SHA256 live in
the Node crypto and node-jose libraries, not in this repository); modelled as
a deterministic rolling digest. -/
def mixStep (h b : Nat) : Nat := (h * 131 + b + 7) % 1000000007

/-- Rolling digest over a byte list. -/
def digest (b : Bytes) : Nat := b.foldl mixStep 5381

/-- Modelled from the spec: keyed-hash message authentication (the symmetric
signature over the encoded envelope). One digest word, keyed on both sides. -/
def hmacSig (key msg : Bytes) : Bytes := [digest (key ++ msg ++ key)]

/-- Modelled from the spec: the deterministic keystream of the direct
symmetric content encryption (A256GCM counter mode in node-jose). -/
def keyByte (key : Bytes) (i : Nat) : Nat := (digest key + i * 131 + 11) % 256

/-- XOR a byte list against the keystream starting at position `i`. -/
def xorStream (key : Bytes) : Nat → Bytes → Bytes
  | _, [] => []
  | i, x :: xs => (x ^^^ keyByte key i) :: xorStream key (i + 1) xs

/-- Modelled from the spec: the authentication tag of the authenticated
encryption mode, computed over the ciphertext under the content key. -/
def gcmTag (key ct : Bytes) : Bytes := [digest (key ++ ct)]

/-- JWS protected header ({alg, kid, clientid}). -/
structure JwsHeader where
  alg : String
  kid : String
  clientid : String
deriving DecidableEq

/-- JWE protected header ({alg, enc, kid, clientid}). -/
structure JweHeader where
  alg : String
  enc : String
  kid : String
  clientid : String
deriving DecidableEq

/-- The three conceptual segments of a compact JWS. -/
structure JwsParts where
  header : JwsHeader
  payload : Bytes
  sig : Bytes
deriving DecidableEq

/-- Segments of a compact JWE (header, ciphertext, tag). -/
structure JweParts where
  header : JweHeader
  ciphertext : Bytes
  tag : Bytes
deriving DecidableEq

def encodeJwsHeader (h : JwsHeader) : Bytes :=
  encStr h.alg ++ encStr h.kid ++ encStr h.clientid

/-- The bytes the JWS signature is computed over (encoded header then payload). -/
def signingInput (h : JwsHeader) (payload : Bytes) : Bytes :=
  encodeJwsHeader h ++ frame payload

/-- Compact serialisation of a JWS. Leading tag byte 74 plays the role of the
base64url alphabet making a JWS distinguishable from raw JSON. -/
def encodeJws (p : JwsParts) : Bytes :=
  74 :: (signingInput p.header p.payload ++ frame p.sig)

def parseJws (b : Bytes) : Option JwsParts :=
  match b with
  | 74 :: b => do
    let (alg, b) ← decStr b
    let (kid, b) ← decStr b
    let (clientid, b) ← decStr b
    let (payload, b) ← unframe b
    let (sig, b) ← unframe b
    if b = [] then some ⟨⟨alg, kid, clientid⟩, payload, sig⟩ else none
  | _ => none

def encodeJweHeader (h : JweHeader) : Bytes :=
  encStr h.alg ++ encStr h.enc ++ encStr h.kid ++ encStr h.clientid

/-- Compact serialisation of a JWE, tag byte 69. -/
def encodeJwe (p : JweParts) : Bytes :=
  69 :: (encodeJweHeader p.header ++ frame p.ciphertext ++ frame p.tag)

def parseJwe (b : Bytes) : Option JweParts :=
  match b with
  | 69 :: b => do
    let (alg, b) ← decStr b
    let (enc, b) ← decStr b
    let (kid, b) ← decStr b
    let (clientid, b) ← decStr b
    let (ciphertext, b) ← unframe b
    let (tag, b) ← unframe b
    if b = [] then some ⟨⟨alg, enc, kid, clientid⟩, ciphertext, tag⟩ else none
  | _ => none

/-- Direct symmetric encryption producing a compact JWE
(content encrypted with the keystream, authenticated by the tag). -/
def jweEncryptCore (key : Bytes) (h : JweHeader) (plain : Bytes) : Bytes :=
  let ct := xorStream key 0 plain
  encodeJwe ⟨h, ct, gcmTag key ct⟩

/-- Decryption of a compact JWE: parse, check the authentication tag,
invert the keystream. Fails (None) when the tag check fails. The key id in
the header is not compared against the key in use, matching node-jose
createDecrypt with an explicitly supplied key. -/
def jweDecryptCore (key : Bytes) (b : Bytes) : Option Bytes :=
  match parseJwe b with
  | none => none
  | some p =>
    if p.tag = gcmTag key p.ciphertext then some (xorStream key 0 p.ciphertext) else none

/-- HS256 signing: emit header, payload and the keyed tag over the signing input. -/
def jwsSignCore (key : Bytes) (h : JwsHeader) (payload : Bytes) : Bytes :=
  encodeJws ⟨h, payload, hmacSig key (signingInput h payload)⟩

/-- HS256 verification: parse, recompute the tag over the signing input with
the supplied key, compare; on success return the payload. The key id of the
envelope header is not compared against anything, matching node-jose
createVerify with an explicitly supplied key (and the hand-rolled verifyJWS,
which never reads the header). -/
def jwsVerifyCore (key : Bytes) (b : Bytes) : Option Bytes :=
  match parseJws b with
  | none => none
  | some p =>
    if p.sig = hmacSig key (signingInput p.header p.payload) then some p.payload else none

end BillDesk


namespace BillDesk

/-- BILLDESK_CONFIG, read from the environment in the source; modelled as an
explicit immutable record. -/
structure Config where
  merchantId : String
  keyId : String
  clientId : String
  clientSecret : String
  signingPassword : String
  encryptionPassword : String
  paymentUrl : String
  returnUrl : String
  webhookUrl : String
  itemCode : String
deriving DecidableEq

/-- JavaScript truthiness of a possibly-absent string (undefined and the
empty string are falsy). -/
def truthyS (o : Option String) : Bool :=
  match o with
  | none => false
  | some s => !(s == "")

/-- JavaScript truthiness of a possibly-absent string of bytes. -/
def truthyB (o : Option Bytes) : Bool :=
  match o with
  | none => false
  | some b => !(b == [])

/-- JavaScript truthiness of a possibly-absent number (undefined and 0 falsy;
NaN is not representable in this model). -/
def truthyI (o : Option Int) : Bool :=
  match o with
  | none => false
  | some v => !(v == 0)

/-- JavaScript `a || d` for a string `a` and string default `d`. -/
def jsOrS (a : Option String) (d : String) : String :=
  match a with
  | some s => if s == "" then d else s
  | none => d

/-- JavaScript `a || b` keeping undefined when both are falsy (strings). -/
def jsOrOS (a b : Option String) : Option String :=
  match a with
  | some s => if s == "" then b else some s
  | none => b

/-- JavaScript `a || b` on numbers (0 and undefined are falsy). -/
def jsOrI (a b : Option Int) : Option Int :=
  match a with
  | some v => if v == 0 then b else some v
  | none => b

/-- A parsed `txnResponse` sub-object of a BillDesk error payload. -/
structure TxnResp where
  orderid : Option String
  order_id : Option String
  mercorderid : Option String
deriving DecidableEq

/-- A `links` entry of a BillDesk v1.2 response; `rdata` stands for
`parameters.rdata` (absent when the link has no parameters object). -/
structure LinkObj where
  href : String
  rel : String
  rdata : Option String
deriving DecidableEq

/-- A decoded BillDesk JSON body: exactly the fields the two service variants
read. `none` models an absent/undefined field; `encrypted_response` is kept
as the opaque string (bytes) the source hands to verifyAndDecrypt. -/
structure FlatPayload where
  merchantid : Option String
  orderid : Option String
  transactionid : Option String
  status : Option String
  message : Option String
  error_code : Option String
  bdorderid : Option String
  encrypted_response : Option Bytes
  txnResponse : Option TxnResp
  links : Option (List LinkObj)
deriving DecidableEq

def encOptStr (o : Option String) : Bytes :=
  match o with
  | none => [0]
  | some s => 1 :: encStr s

def decOptStr (b : Bytes) : Option (Option String × Bytes) :=
  match b with
  | 0 :: rest => some (none, rest)
  | 1 :: rest => (decStr rest).map (fun p => (some p.1, p.2))
  | _ => none

def encOptBytes (o : Option Bytes) : Bytes :=
  match o with
  | none => [0]
  | some s => 1 :: frame s

def decOptBytes (b : Bytes) : Option (Option Bytes × Bytes) :=
  match b with
  | 0 :: rest => some (none, rest)
  | 1 :: rest => (unframe rest).map (fun p => (some p.1, p.2))
  | _ => none

def encTxnResp (t : TxnResp) : Bytes :=
  encOptStr t.orderid ++ encOptStr t.order_id ++ encOptStr t.mercorderid

def decTxnResp (b : Bytes) : Option (TxnResp × Bytes) := do
  let (orderid, b) ← decOptStr b
  let (order_id, b) ← decOptStr b
  let (mercorderid, b) ← decOptStr b
  some (⟨orderid, order_id, mercorderid⟩, b)

def encOptTxnResp (o : Option TxnResp) : Bytes :=
  match o with
  | none => [0]
  | some t => 1 :: encTxnResp t

def decOptTxnResp (b : Bytes) : Option (Option TxnResp × Bytes) :=
  match b with
  | 0 :: rest => some (none, rest)
  | 1 :: rest => (decTxnResp rest).map (fun p => (some p.1, p.2))
  | _ => none

def encLink (l : LinkObj) : Bytes :=
  encStr l.href ++ encStr l.rel ++ encOptStr l.rdata

def encLinkList (ls : List LinkObj) : Bytes :=
  match ls with
  | [] => []
  | l :: rest => encLink l ++ encLinkList rest

def decLinkList : Nat → Bytes → Option (List LinkObj × Bytes)
  | 0, b => some ([], b)
  | n + 1, b => do
    let (href, b) ← decStr b
    let (rel, b) ← decStr b
    let (rdata, b) ← decOptStr b
    let (rest, b) ← decLinkList n b
    some (⟨href, rel, rdata⟩ :: rest, b)

def encOptLinks (o : Option (List LinkObj)) : Bytes :=
  match o with
  | none => [0]
  | some ls => 1 :: ls.length :: encLinkList ls

def decOptLinks (b : Bytes) : Option (Option (List LinkObj) × Bytes) :=
  match b with
  | 0 :: rest => some (none, rest)
  | 1 :: n :: rest => (decLinkList n rest).map (fun p => (some p.1, p.2))
  | _ => none

/-- Serialised JSON text of a BillDesk body. Leading tag byte 123 is the
opening brace character code, as for real JSON text. -/
def encodeBd (p : FlatPayload) : Bytes :=
  123 :: (encOptStr p.merchantid ++ encOptStr p.orderid ++ encOptStr p.transactionid ++
    encOptStr p.status ++ encOptStr p.message ++ encOptStr p.error_code ++
    encOptStr p.bdorderid ++ encOptBytes p.encrypted_response ++
    encOptTxnResp p.txnResponse ++ encOptLinks p.links)

/-- Models JSON.parse of a body, as far as the services consume it: yields the
fields of `FlatPayload` or fails on anything that is not JSON text. -/
def parseBd (b : Bytes) : Option FlatPayload :=
  match b with
  | 123 :: b => do
    let (merchantid, b) ← decOptStr b
    let (orderid, b) ← decOptStr b
    let (transactionid, b) ← decOptStr b
    let (status, b) ← decOptStr b
    let (message, b) ← decOptStr b
    let (error_code, b) ← decOptStr b
    let (bdorderid, b) ← decOptStr b
    let (encrypted_response, b) ← decOptBytes b
    let (txnResponse, b) ← decOptTxnResp b
    let (links, b) ← decOptLinks b
    if b = [] then
      some ⟨merchantid, orderid, transactionid, status, message, error_code,
        bdorderid, encrypted_response, txnResponse, links⟩
    else none
  | _ => none

/-- A Transaction document (models/Transaction); metadata fields inlined.
The raw response blob stored in metadata.responseData is not modelled. -/
structure TxnDoc where
  id : Nat
  orderNumber : String
  order : String
  paymentMethod : String
  amount : Int
  status : String
  createdAt : Nat
  billDeskTxnId : Option String
  responseAt : Option Nat
  bdOrderId : Option String
  traceIdM : Option String
  rdata : Option String
deriving DecidableEq

/-- The Transaction collection. -/
structure Store where
  txns : List TxnDoc
  nextId : Nat
deriving DecidableEq

/-- Models Transaction.findOne on orderNumber. -/
def findByOrderNumber (s : Store) (onum : String) : Option TxnDoc :=
  s.txns.find? (fun t => t.orderNumber == onum)

/-- Saving an existing document (matched by id). -/
def saveTxn (s : Store) (t : TxnDoc) : Store :=
  { s with txns := s.txns.map (fun u => if u.id == t.id then t else u) }

/-- Saving a new document. -/
def saveNew (s : Store) (t : TxnDoc) : Store :=
  { txns := s.txns ++ [t], nextId := s.nextId + 1 }

/-- Models Transaction.findOne for a pending transaction created in the trailing
ten-minute window, sorted by createdAt descending (most recent first). -/
def recentPending (s : Store) (now : Nat) : Option TxnDoc :=
  (s.txns.filter (fun t => t.status == "pending" && now - 600000 ≤ t.createdAt)).foldl
    (fun acc t =>
      match acc with
      | none => some t
      | some b => if b.createdAt < t.createdAt then some t else some b) none

/-- The in-memory rate-limit map. -/
abbrev RLMap := List (String × List Nat)

def RATE_LIMIT_WINDOW : Nat := 60000

def MAX_REQUESTS_PER_WINDOW : Nat := 5

def rlGet (m : RLMap) (k : String) : List Nat :=
  match m.find? (fun p => p.1 == k) with
  | some p => p.2
  | none => []

def rlSet (m : RLMap) (k : String) (v : List Nat) : RLMap :=
  match m with
  | [] => [(k, v)]
  | (k2, v2) :: rest => if k2 == k then (k, v) :: rest else (k2, v2) :: rlSet rest k v

/-- checkRateLimit: prune entries outside the window, reject when the count
has reached the cap, otherwise append the current time and admit. The map is
left untouched on rejection. -/
def checkRateLimit (m : RLMap) (identifier : String) (now : Nat) : Bool × RLMap :=
  let recentRequests := (rlGet m identifier).filter (fun time => now - time < RATE_LIMIT_WINDOW)
  if MAX_REQUESTS_PER_WINDOW ≤ recentRequests.length then (false, m)
  else (true, rlSet m identifier (recentRequests ++ [now]))

end BillDesk

namespace BillDesk.Official

/-- encrypt: BillDesk official JOSE helper; the content key is the raw
encryption password bytes. -/
def encrypt (request : Bytes) (clientId encryptionKey encryptionKeyId : String) : Bytes :=
  jweEncryptCore (strBytes encryptionKey)
    ⟨"dir", "A256GCM", encryptionKeyId, clientId⟩ request

/-- decrypt: BillDesk official JOSE helper. -/
def decrypt (encryptedData : Bytes) (encryptionKey encryptionKeyId : String) : Option Bytes :=
  jweDecryptCore (strBytes encryptionKey) encryptedData

/-- sign: BillDesk official JOSE helper (HS256 with the raw signing
password bytes). -/
def sign (request : Bytes) (clientId signingKey signingKeyId : String) : Bytes :=
  jwsSignCore (strBytes signingKey) ⟨"HS256", signingKeyId, clientId⟩ request

/-- verify: BillDesk official JOSE helper. The signingKeyId names the local
key only; node-jose uses the supplied key whatever the envelope kid says. -/
def verify (request : Bytes) (signingKey signingKeyId : String) : Option Bytes :=
  jwsVerifyCore (strBytes signingKey) request

/-- encryptAndSign = sign after encrypt. -/
def encryptAndSign (request : Bytes)
    (clientId encryptionKey encryptionKeyId signingKey signingKeyId : String) : Bytes :=
  sign (encrypt request clientId encryptionKey encryptionKeyId) clientId signingKey signingKeyId

/-- verifyAndDecrypt = decrypt after verify; never decrypts unverified data. -/
def verifyAndDecrypt (request : Bytes)
    (encryptionKey encryptionKeyId signingKey signingKeyId : String) : Option Bytes := do
  let verified ← verify request signingKey signingKeyId
  decrypt verified encryptionKey encryptionKeyId

end BillDesk.Official

namespace BillDesk.Svc

/-- getEncryptionKey of services/billDeskService.js: AES key derived as the
SHA-256 hash of the encryption password (modelled with the rolling digest). -/
def getEncryptionKeyBytes (cfg : Config) : Bytes :=
  [digest (strBytes cfg.encryptionPassword)]

/-- encryptJWE of services/billDeskService.js. -/
def encryptJWE (cfg : Config) (plain : Bytes) : Bytes :=
  jweEncryptCore (getEncryptionKeyBytes cfg)
    ⟨"dir", "A256GCM", cfg.keyId, cfg.clientId⟩ plain

/-- decryptJWE of services/billDeskService.js. -/
def decryptJWE (cfg : Config) (b : Bytes) : Option Bytes :=
  jweDecryptCore (getEncryptionKeyBytes cfg) b

/-- generateJWS: hand-rolled HS256 with kid and clientid both the Security ID. -/
def generateJWS (cfg : Config) (payload : Bytes) : Bytes :=
  jwsSignCore (strBytes cfg.signingPassword) ⟨"HS256", cfg.keyId, cfg.keyId⟩ payload

/-- The payload field of a verifyJWS result: the decoded payload is kept as
a parsed JSON object when it parses, and as the raw string otherwise. -/
inductive VerifiedPayload where
  | obj (p : FlatPayload)
  | str (b : Bytes)
deriving DecidableEq

/-- verifyJWS of services/billDeskService.js: recompute the HMAC over
header.payload and compare; the header content itself is never read.
`none` models isValid:false. -/
def verifyJWS (cfg : Config) (token : Bytes) : Option VerifiedPayload :=
  match jwsVerifyCore (strBytes cfg.signingPassword) token with
  | none => none
  | some pb =>
    match parseBd pb with
    | some p => some (.obj p)
    | none => some (.str pb)

end BillDesk.Svc

namespace BillDesk

/-- Models status.toUpperCase() over the byte-character model (ASCII uppercase,
as for the gateway status words; String.map does not reduce in the kernel,
so the map runs over the character list). -/
def toUpperStr (s : String) : String := String.mk (s.data.map Char.toUpper)

/-- The structured result of processResponse (the raw `data` echo is not
modelled; absent fields are `none`). -/
structure ProcResult where
  success : Bool
  message : String
  status : Option String
  transactionId : Option Nat
  orderNumber : Option String
  errorCode : Option String
deriving DecidableEq

/-- The argument of processResponse: a raw string body, or an
already-parsed JSON object (as Express hands over a parsed webhook body). -/
inductive RespData where
  | strD (b : Bytes)
  | objD (p : FlatPayload)
deriving DecidableEq

/-- One field of a JavaScript object spread: the inner (second) object wins
when it carries the field. -/
def mergeField {α : Type} (outerF innerF : Option α) : Option α :=
  match innerF with
  | some x => some x
  | none => outerF

/-- JavaScript object spread of the inner over the outer payload fields. -/
def mergePayload (outer inner : FlatPayload) : FlatPayload where
  merchantid := mergeField outer.merchantid inner.merchantid
  orderid := mergeField outer.orderid inner.orderid
  transactionid := mergeField outer.transactionid inner.transactionid
  status := mergeField outer.status inner.status
  message := mergeField outer.message inner.message
  error_code := mergeField outer.error_code inner.error_code
  bdorderid := mergeField outer.bdorderid inner.bdorderid
  encrypted_response := mergeField outer.encrypted_response inner.encrypted_response
  txnResponse := mergeField outer.txnResponse inner.txnResponse
  links := mergeField outer.links inner.links

/-- The Order document fields consumed by the payment service. -/
structure OrderDoc where
  _id : Option String
  orderNumber : Option String
  finalAmount : Option Int
  totalAmount : Option Int
  amount : Option Int
  customer : Option String
deriving DecidableEq

/-- The selection `order.finalAmount || order.totalAmount || order.amount`. -/
def selectedAmount (o : OrderDoc) : Option Int :=
  jsOrI o.finalAmount (jsOrI o.totalAmount o.amount)

/-- validateOrderData: amount must be truthy, a number and positive; at most
the configured ceiling; the order must have a truthy `_id`. Throwing is
modelled as `Except.error` with the thrown message. -/
def validateOrderData (o : OrderDoc) : Except String Unit :=
  match selectedAmount o with
  | none => .error "Invalid order amount"
  | some v =>
    if v ≤ 0 then .error "Invalid order amount"
    else if v > 1000000 then .error "Order amount exceeds maximum limit"
    else if !(truthyS o._id) then .error "Order ID is required"
    else .ok ()

/-- The selected amount is absent or fails the positivity check. -/
def amountInvalid (o : OrderDoc) : Bool :=
  match selectedAmount o with
  | none => true
  | some v => decide (v ≤ 0)

/-- The selected amount exceeds the configured ceiling. -/
def amountExceeds (o : OrderDoc) : Bool :=
  match selectedAmount o with
  | none => false
  | some v => decide (v > 1000000)

/-- JavaScript template interpolation of a possibly-undefined id. -/
def jsShowId (o : Option String) : String :=
  match o with
  | some s => s
  | none => "undefined"

/-- The order reference used for the Transaction row:
`order.orderNumber || generated`, the generated name determinised on `now`. -/
def resolvedOrderNumber (order : OrderDoc) (now : Nat) : String :=
  jsOrS order.orderNumber ("order" ++ toString now)

/-- The canonical payment request payload (jsonRequest); the moment-formatted
order date is determinised on `now`, the device block constants are fixed in
the source and only the client ip varies. -/
structure PayReq where
  mercid : String
  orderid : String
  amount : String
  order_date : String
  currency : String
  ru : String
  additional_info1 : String
  additional_info2 : String
  additional_info7 : String
  itemcode : String
  device_ip : String
deriving DecidableEq

/-- Models amount.toFixed(2); amounts are modelled in whole currency units. -/
def toFixed2 (v : Int) : String := toString v ++ ".00"

def buildJsonRequest (cfg : Config) (orderNumber : String) (amount : Int)
    (customerEmail clientIp : String) (now : Nat) : PayReq where
  mercid := cfg.merchantId
  orderid := orderNumber
  amount := toFixed2 amount
  order_date := "T" ++ toString now
  currency := "356"
  ru := cfg.returnUrl
  additional_info1 := "Order " ++ orderNumber
  additional_info2 := customerEmail
  additional_info7 := "mgl"
  itemcode := cfg.itemCode
  device_ip := clientIp

/-- Serialised JSON text of the request payload (request side only, never
parsed back). -/
def encodePayReq (p : PayReq) : Bytes :=
  80 :: (encStr p.mercid ++ encStr p.orderid ++ encStr p.amount ++ encStr p.order_date ++
    encStr p.currency ++ encStr p.ru ++ encStr p.additional_info1 ++
    encStr p.additional_info2 ++ encStr p.additional_info7 ++ encStr p.itemcode ++
    encStr p.device_ip)

/-- Whether `pat` is a leading run of `hay`. -/
def leadsWith : Bytes → Bytes → Bool
  | _, [] => true
  | [], _ :: _ => false
  | h :: hs, p :: ps => h == p && leadsWith hs ps

/-- JavaScript String.includes over the byte model. -/
def containsSeq : Bytes → Bytes → Bool
  | [], pat => leadsWith [] pat
  | h :: t, pat => leadsWith (h :: t) pat || containsSeq t pat

/-- The links.find of the redirect entry pointing at the embedded SDK. -/
def findRedirectLink (links : List LinkObj) : Option LinkObj :=
  links.find? (fun link =>
    containsSeq (strBytes link.href) (strBytes "embeddedsdk") && link.rel == "redirect")

/-- The embedded SDK url and rdata extracted from a links collection
(defaults as in the source when no redirect link is present). -/
def extractLinks (links : Option (List LinkObj)) : String × Option String :=
  match links with
  | some ls =>
    match findRedirectLink ls with
    | some l => (l.href, l.rdata)
    | none => ("https://uat1.billdesk.com/u2/web/v1_2/embeddedsdk", none)
  | none => ("https://uat1.billdesk.com/u2/web/v1_2/embeddedsdk", none)

/-- What the gateway answered the synchronous call with (node-fetch response:
HTTP status plus body text). -/
structure GatewayResponse where
  status : Nat
  body : Bytes
deriving DecidableEq

/-- Observable side effects of createPaymentRequest, in execution order:
persisting a Transaction document, and the outbound network call with its
url and request body. -/
inductive Eff where
  | txnSave (t : TxnDoc)
  | network (url : String) (body : Bytes)
deriving DecidableEq

/-- The result object of a successful createPaymentRequest (debugInfo is log
material and not modelled). -/
structure CreateResult where
  success : Bool
  paymentUrl : String
  merchantId : String
  bdOrderId : Option String
  rdata : Option String
  formHtml : Option Bytes
  isRedirect : Bool
  transactionId : Nat
  orderNumber : String
deriving DecidableEq

end BillDesk

namespace BillDesk.Svc

/-- The tail of processResponse (services/billDeskService.js) from the field
check on: requires truthy merchantid, orderid and status, looks the
Transaction up by order id, maps the gateway status case-insensitively to
success/failed/pending, overwrites the stored status unconditionally and
persists. -/
def processFields (store : Store) (now : Nat) (vd : FlatPayload) : ProcResult × Store :=
  if !(truthyS vd.merchantid && truthyS vd.orderid && truthyS vd.status) then
    (⟨false, "Invalid response from payment gateway", none, none, none, none⟩, store)
  else
    let oid := jsOrS vd.orderid ""
    let st := jsOrS vd.status ""
    match findByOrderNumber store oid with
    | none => (⟨false, "Transaction record not found", none, none, none, none⟩, store)
    | some transaction =>
      let paymentStatus :=
        if toUpperStr st == "SUCCESS" then "success"
        else if toUpperStr st == "FAILED" then "failed"
        else "pending"
      let t2 := { transaction with
        status := paymentStatus
        billDeskTxnId := vd.transactionid
        responseAt := some now }
      (⟨paymentStatus == "success", "Payment " ++ paymentStatus, some paymentStatus,
        some transaction.id, some oid, none⟩, saveTxn store t2)

/-- processResponse of services/billDeskService.js. A string body is
JWS-verified (returning the invalid-signature result on failure); a verified
string payload is JWE-decrypted and JSON-parsed (returning the
decryption-failed result when either step fails); an object payload flows
directly to the field check. Never throws. -/
def processResponse (cfg : Config) (store : Store) (now : Nat)
    (responseData : RespData) : ProcResult × Store :=
  match responseData with
  | .strD b =>
    match verifyJWS cfg b with
    | none => (⟨false, "Invalid signature from payment gateway", none, none, none, none⟩, store)
    | some (.obj p) => processFields store now p
    | some (.str sb) =>
      match (decryptJWE cfg sb).bind parseBd with
      | none => (⟨false, "Decryption failed", none, none, none, none⟩, store)
      | some p => processFields store now p
  | .objD p => processFields store now p

end BillDesk.Svc

namespace BillDesk.Official

/-- The text of the missing-fields message (the filter-join over the absent
field names); only evaluated when at least one of the two is missing. -/
def missingFieldsText (vd : FlatPayload) : String :=
  if !(truthyS vd.merchantid) && !(truthyS vd.orderid) then "merchantid, orderid"
  else if !(truthyS vd.merchantid) then "merchantid"
  else "orderid"

/-- The tail of the official-variant processResponse from the field check on.
Only merchantid and orderid are required (status is not checked); when both
are present the Transaction is looked up and the status mapped to
completed/failed/pending; reading toUpperCase of an absent status throws,
modelled as `Except.error`. -/
def processFields (cfg : Config) (store : Store) (now : Nat) (vd : FlatPayload) :
    Except String ProcResult × Store :=
  if !(truthyS vd.merchantid && truthyS vd.orderid) then
    let fallback0 : Option String := if truthyS vd.orderid then vd.orderid else none
    let fallback1 : Option String :=
      match fallback0 with
      | some s => some s
      | none =>
        match vd.txnResponse with
        | some tr => jsOrOS tr.orderid tr.order_id
        | none => none
    let fallback2 : Option String :=
      if truthyS fallback1 then fallback1
      else
        match recentPending store now with
        | some t => some t.orderNumber
        | none => fallback1
    if !(truthyS fallback2) then
      (.ok ⟨false, jsOrS vd.message ("Payment processing error - Missing fields: " ++ missingFieldsText vd),
        some "failed", none, some "unknown", some (jsOrS vd.error_code "UNKNOWN")⟩, store)
    else
      (.ok ⟨false, jsOrS vd.message "Payment failed", some (jsOrS vd.status "failed"),
        none, fallback2, some (jsOrS vd.error_code "UNKNOWN")⟩, store)
  else
    let oid := jsOrS vd.orderid ""
    match findByOrderNumber store oid with
    | none =>
      (.ok ⟨false, "Transaction record not found", some "failed", none, some oid, none⟩, store)
    | some transaction =>
      match vd.status with
      | none =>
        (.error "TypeError: Cannot read properties of undefined (reading toUpperCase)", store)
      | some st =>
        let paymentStatus :=
          if toUpperStr st == "SUCCESS" then "completed"
          else if toUpperStr st == "FAILED" then "failed"
          else "pending"
        let t2 := { transaction with
          status := paymentStatus
          billDeskTxnId := vd.transactionid
          responseAt := some now }
        (.ok ⟨paymentStatus == "completed", "Payment " ++ paymentStatus, some paymentStatus,
          some transaction.id, some oid, none⟩, saveTxn store t2)

/-- The official-variant handling of a verified payload: when it carries an
encrypted_response field, that field is verified+decrypted and its fields
merged over the outer object; when the nested decryption fails, a best-effort
order id is recovered from txnResponse or the most recent pending Transaction
of the trailing ten minutes, and a failed result is returned. -/
def processVerified (cfg : Config) (store : Store) (now : Nat) (vd : FlatPayload) :
    Except String ProcResult × Store :=
  if truthyB vd.encrypted_response then
    match vd.encrypted_response with
    | some enc =>
      match (verifyAndDecrypt enc cfg.encryptionPassword cfg.keyId
          cfg.signingPassword cfg.keyId).bind parseBd with
      | some innerData => processFields cfg store now (mergePayload vd innerData)
      | none =>
        let fromTxn : String :=
          match vd.txnResponse with
          | some tr => jsOrS (jsOrOS tr.orderid (jsOrOS tr.order_id tr.mercorderid)) "unknown"
          | none => "unknown"
        let orderNumberFromError : String :=
          if fromTxn == "unknown" then
            match recentPending store now with
            | some t => t.orderNumber
            | none => "unknown"
          else fromTxn
        (.ok ⟨false, jsOrS vd.message "Payment failed", some "failed", none,
          some orderNumberFromError, some (jsOrS vd.error_code "UNKNOWN")⟩, store)
    | none => processFields cfg store now vd
  else processFields cfg store now vd

/-- processResponse of the official-JOSE variant. A string body goes through
verifyAndDecrypt plus JSON.parse; on failure a direct JSON.parse of the raw
body is attempted; when both fail the failed/unknown result is returned. -/
def processResponse (cfg : Config) (store : Store) (now : Nat)
    (responseData : RespData) : Except String ProcResult × Store :=
  match responseData with
  | .strD b =>
    match (verifyAndDecrypt b cfg.encryptionPassword cfg.keyId
        cfg.signingPassword cfg.keyId).bind parseBd with
    | some vd => processVerified cfg store now vd
    | none =>
      match parseBd b with
      | some vd => processVerified cfg store now vd
      | none =>
        (.ok ⟨false, "Invalid signature or encryption from payment gateway",
          some "failed", none, some "unknown", none⟩, store)
  | .objD p => processVerified cfg store now p

/-- The response branch of createPaymentRequest, after the Transaction save
and the network call. Errors are the messages thrown inside the try block
(the caller wraps them). A non-2xx response has its body verify+decrypted as
an error envelope with a direct-JSON fallback for the human-readable message;
an HTML body is returned verbatim as a redirect form; otherwise the body is
verify+decrypted (direct-JSON fallback) and the bdorderid and links resolved.
The destructuring crash of the direct-JSON-parsed-but-no-bdorderid path is
modelled as its TypeError message. -/
def handleCreateResponse (cfg : Config) (resp : GatewayResponse) (txn : TxnDoc)
    (store : Store) (orderNumber traceId : String) :
    Except String CreateResult × Store × List Eff :=
  let ok := 200 ≤ resp.status && resp.status < 300
  if !ok then
    let errorMessage :=
      match (verifyAndDecrypt resp.body cfg.encryptionPassword cfg.keyId
          cfg.signingPassword cfg.keyId).bind parseBd with
      | some errorJson =>
        if truthyS errorJson.message then
          "BillDesk Error: " ++ jsOrS errorJson.message "" ++ " (" ++
            jsOrS errorJson.error_code (toString resp.status) ++ ")"
        else "Payment gateway error. Please try again. (Status: " ++ toString resp.status ++ ")"
      | none =>
        match parseBd resp.body with
        | some errorJson =>
          if truthyS errorJson.message then
            "BillDesk Error: " ++ jsOrS errorJson.message ""
          else "Payment gateway error. Please try again. (Status: " ++ toString resp.status ++ ")"
        | none => "Payment gateway error. Please try again. (Status: " ++ toString resp.status ++ ")"
    (.error errorMessage, store, [])
  else if containsSeq resp.body (strBytes "<!DOCTYPE html") ||
      containsSeq resp.body (strBytes "<html") then
    (.ok { success := true, paymentUrl := cfg.paymentUrl, merchantId := cfg.merchantId,
           bdOrderId := none, rdata := none, formHtml := some resp.body, isRedirect := true,
           transactionId := txn.id, orderNumber := orderNumber }, store, [])
  else
    match (verifyAndDecrypt resp.body cfg.encryptionPassword cfg.keyId
        cfg.signingPassword cfg.keyId).bind parseBd with
    | some responseJson =>
      if truthyS responseJson.bdorderid then
        let lk := extractLinks responseJson.links
        let t2 := { txn with
                    bdOrderId := responseJson.bdorderid
                    traceIdM := some traceId
                    rdata := lk.2 }
        (.ok { success := true, paymentUrl := lk.1, merchantId := cfg.merchantId,
               bdOrderId := responseJson.bdorderid, rdata := lk.2, formHtml := none,
               isRedirect := false, transactionId := txn.id, orderNumber := orderNumber },
          saveTxn store t2, [Eff.txnSave t2])
      else (.error "Missing bdorderid in BillDesk response", store, [])
    | none =>
      match parseBd resp.body with
      | some directJson =>
        if truthyS directJson.bdorderid then
          let lk := extractLinks directJson.links
          let t2 := { txn with
                      bdOrderId := directJson.bdorderid
                      traceIdM := some traceId
                      rdata := lk.2 }
          (.ok { success := true, paymentUrl := lk.1, merchantId := cfg.merchantId,
                 bdOrderId := directJson.bdorderid, rdata := lk.2, formHtml := none,
                 isRedirect := false, transactionId := txn.id, orderNumber := orderNumber },
            saveTxn store t2, [Eff.txnSave t2])
        else
          (.error "TypeError: Cannot destructure property bdorderid of responseJson as it is undefined.",
            store, [])
      | none => (.error "Invalid response format - neither valid JWS nor JSON", store, [])

/-- The best-effort customer contact lookup: the email of the customer
record when present and truthy, else the placeholder. -/
def resolvedEmail (users : List (String × String)) (order : OrderDoc) : String :=
  match order.customer with
  | some cid =>
    match users.find? (fun p => p.1 == cid) with
    | some p => if p.2 == "" then "customer@example.com" else p.2
    | none => "customer@example.com"
  | none => "customer@example.com"

/-- createPaymentRequest of the official-JOSE variant. The rate limit on the
orderId-clientIp key is checked first (mutating the window on admission),
then the order data is validated; both failures throw their message before
any persistence or network effect. Then the request payload is built,
encrypted and signed, a pending Transaction row is saved, and only then the
network call is issued; the response handling runs inside the try block whose
catch rethrows with the BillDesk API call failed prefix. Randomness in the
generated order number and trace id is determinised on `now`; the user
lookup for contact enrichment is the `users` association (customer id to
email), defaulting to the placeholder. -/
def createPaymentRequest (cfg : Config) (users : List (String × String))
    (store : Store) (rl : RLMap) (now : Nat) (resp : GatewayResponse)
    (order : OrderDoc) (clientIp : String) :
    Except String CreateResult × Store × RLMap × List Eff :=
  let rateLimitKey := jsShowId order._id ++ "-" ++ clientIp
  let rlRes := checkRateLimit rl rateLimitKey now
  if !rlRes.1 then
    (.error "Too many payment requests. Please try again later.", store, rlRes.2, [])
  else
    match validateOrderData order with
    | .error msg => (.error msg, store, rlRes.2, [])
    | .ok _ =>
      let amount := (selectedAmount order).getD 0
      let orderNumber := resolvedOrderNumber order now
      let customerEmail := resolvedEmail users order
      let jsonRequest := buildJsonRequest cfg orderNumber amount customerEmail clientIp now
      let jwsToken := encryptAndSign (encodePayReq jsonRequest) cfg.clientId
        cfg.encryptionPassword cfg.keyId cfg.signingPassword cfg.keyId
      let txn : TxnDoc := { id := store.nextId, orderNumber := orderNumber,
                            order := jsShowId order._id, paymentMethod := "billdesk",
                            amount := amount, status := "pending", createdAt := now,
                            billDeskTxnId := none, responseAt := none, bdOrderId := none,
                            traceIdM := none, rdata := none }
      let store1 := saveNew store txn
      let traceId := "TXN" ++ toString now
      let handled := handleCreateResponse cfg resp txn store1 orderNumber traceId
      let wrapped : Except String CreateResult :=
        match handled.1 with
        | .error m => .error ("BillDesk API call failed: " ++ m)
        | .ok r => .ok r
      (wrapped, handled.2.1, rlRes.2,
        Eff.txnSave txn :: Eff.network cfg.paymentUrl jwsToken :: handled.2.2)

end BillDesk.Official

namespace BillDesk

/-- Modelled from the spec, for comparison with the source verify step: a
verifier that tries the real key id first and the sentinel "HMAC" second, in
explicit priority order, where an attempt with key id k succeeds only when
the envelope header carries k and the recomputed tag matches. -/
def verifyWithKid (cfg : Config) (kidTry : String) (b : Bytes) : Option Bytes :=
  match parseJws b with
  | none => none
  | some p =>
    if p.header.kid == kidTry &&
        p.sig == hmacSig (strBytes cfg.signingPassword) (signingInput p.header p.payload) then
      some p.payload
    else none

/-- Modelled from the spec: try the real key id, then the sentinel. -/
def verifyTryRealThenSentinel (cfg : Config) (b : Bytes) : Option Bytes :=
  match verifyWithKid cfg cfg.keyId b with
  | some r => some r
  | none => verifyWithKid cfg "HMAC" b

/-- The amount-selection rule as the spec words it: the first truthy of
finalAmount, totalAmount, amount. -/
def specFirstTruthy (o : OrderDoc) : Option Int :=
  if truthyI o.finalAmount then o.finalAmount
  else if truthyI o.totalAmount then o.totalAmount
  else o.amount

end BillDesk

namespace BillDesk

/-- Flip bit j of the first byte of a signature segment. -/
def flipBit (b : Bytes) (j : Nat) : Bytes :=
  match b with
  | [] => []
  | x :: xs => (x ^^^ 2 ^ j) :: xs

/-- Re-encode an envelope with bit j of its signature segment flipped
(identity on strings that are not a compact JWS). -/
def tamperSigBit (b : Bytes) (j : Nat) : Bytes :=
  match parseJws b with
  | some p => encodeJws ⟨p.header, p.payload, flipBit p.sig j⟩
  | none => b

/-- Run a sequence of admission checks at the given times, collecting the
verdicts while threading the rate-limit map. -/
def admitSeq : RLMap → String → List Nat → List Bool
  | _, _, [] => []
  | m, identifier, t :: ts =>
    let r := checkRateLimit m identifier t
    r.1 :: admitSeq r.2 identifier ts

/-- Equality of Except values is decidable componentwise (the core library
carries no such instance). -/
def exceptDecEq {e a : Type} [DecidableEq e] [DecidableEq a] :
    (x y : Except e a) → Decidable (x = y)
  | .error u, .error v =>
    if h : u = v then .isTrue (by rw [h]) else .isFalse (by simp [h])
  | .error _, .ok _ => .isFalse (by simp)
  | .ok _, .error _ => .isFalse (by simp)
  | .ok u, .ok v =>
    if h : u = v then .isTrue (by rw [h]) else .isFalse (by simp [h])

instance {e a : Type} [DecidableEq e] [DecidableEq a] : DecidableEq (Except e a) :=
  exceptDecEq

/-- A concrete configuration for the closed scenarios. -/
def cfg0 : Config :=
  ⟨"M1", "K1", "C1", "S1", "sp", "ep", "https://pay", "https://ru", "https://wh", "DIRECT"⟩

/-- The all-absent JSON body. -/
def emptyPayload : FlatPayload :=
  ⟨none, none, none, none, none, none, none, none, none, none⟩

/-- A Transaction already in the terminal success status. -/
def txnSuccess : TxnDoc :=
  ⟨1, "ORD-1", "O1", "billdesk", 100, "success", 0, none, none, none, none, none⟩

/-- A pending Transaction for ORD-1. -/
def txnPending : TxnDoc :=
  ⟨1, "ORD-1", "O1", "billdesk", 100, "pending", 0, none, none, none, none, none⟩

def storeTerminal : Store := ⟨[txnSuccess], 2⟩

def storePending : Store := ⟨[txnPending], 2⟩

/-- The empty Transaction collection. -/
def store0 : Store := ⟨[], 1⟩

/-- A webhook body reporting an intermediate gateway status for ORD-1. -/
def payloadPending : FlatPayload :=
  { emptyPayload with merchantid := some "M1", orderid := some "ORD-1",
                      transactionid := some "T2", status := some "PENDING" }

/-- The happy-path webhook body for ORD-1. -/
def payloadSuccess : FlatPayload :=
  { emptyPayload with merchantid := some "M1", orderid := some "ORD-1",
                      transactionid := some "T1", status := some "SUCCESS" }

/-- A webhook body with merchantid and orderid but no status field. -/
def payloadNoStatus : FlatPayload :=
  { emptyPayload with merchantid := some "M1", orderid := some "ORD-1",
                      transactionid := some "T1" }

/-- The happy-path webhook envelope: the success body, JWE-encrypted and
JWS-signed under the configured keys (by the service primitives themselves,
as the counterparty would produce it). -/
def envC7 : Bytes := Svc.generateJWS cfg0 (Svc.encryptJWE cfg0 (encodeBd payloadSuccess))

/-- An error body as decrypted from a gateway error envelope. -/
def errPayload : FlatPayload :=
  { emptyPayload with message := some "Invalid mercid", error_code := some "VALIDATION" }

/-- A gateway error envelope signed with the sentinel key id "HMAC" in its
header (encryption still under the real key id). -/
def envSentinel : Bytes :=
  jwsSignCore (strBytes cfg0.signingPassword) ⟨"HS256", "HMAC", cfg0.clientId⟩
    (Official.encrypt (encodeBd errPayload) cfg0.clientId cfg0.encryptionPassword cfg0.keyId)

/-- The same envelope signed under a key id that is neither the real id nor
the sentinel. -/
def envWeirdKid : Bytes :=
  jwsSignCore (strBytes cfg0.signingPassword) ⟨"HS256", "WEIRD", cfg0.clientId⟩
    (Official.encrypt (encodeBd errPayload) cfg0.clientId cfg0.encryptionPassword cfg0.keyId)

/-- A valid order for 100 units. -/
def orderOk : OrderDoc := ⟨some "O1", some "ORD-1", some 100, none, none, none⟩

/-- An order whose selected amount is negative. -/
def orderNegAmount : OrderDoc := ⟨some "O1", some "ORD-3", some (-5), none, none, none⟩

/-- An order whose every amount field is falsy (finalAmount 0, others absent). -/
def orderZeroFinal : OrderDoc := ⟨some "O8", some "ORD-8", some 0, none, none, none⟩

/-- An order with finalAmount absent and a valid totalAmount fallback. -/
def orderFallback : OrderDoc := ⟨some "O9", some "ORD-9", none, some 250, some 999, none⟩

/-- An HTTP 422 whose body is the sentinel-signed error envelope. -/
def resp422 : GatewayResponse := ⟨422, envSentinel⟩

/-- An HTTP 200 whose body is a signed, encrypted response carrying a
bdorderid and a redirect link. -/
def respOk : GatewayResponse :=
  ⟨200, Official.encryptAndSign
    (encodeBd { emptyPayload with
                bdorderid := some "BD1",
                links := some [⟨"https://uat1.billdesk.com/u2/web/v1_2/embeddedsdk", "redirect",
                                some "rd1"⟩] })
    cfg0.clientId cfg0.encryptionPassword cfg0.keyId cfg0.signingPassword cfg0.keyId⟩

/-- The request body the builder sends for orderOk at time 5 (used to name
the network effect of the concrete run). -/
def bodyC4 : Bytes :=
  Official.encryptAndSign
    (encodePayReq (buildJsonRequest cfg0 "ORD-1" 100 "customer@example.com" "1.2.3.4" 5))
    cfg0.clientId cfg0.encryptionPassword cfg0.keyId cfg0.signingPassword cfg0.keyId

/-- An exhausted rate-limit window for the O1 key (five recent admissions). -/
def rlFullO1 : RLMap := [("O1-1.2.3.4", [99900, 99910, 99920, 99930, 99940])]

/-- An exhausted window for the O8 key. -/
def rlFullO8 : RLMap := [("O8-1.2.3.4", [99900, 99901, 99902, 99903, 99904])]

/-- A window for the O8 key with one admission slot left. -/
def rlFourO8 : RLMap := [("O8-1.2.3.4", [99900, 99901, 99902, 99903])]

end BillDesk

namespace BillDesk

theorem unframe_frame (b t : Bytes) : unframe (frame b ++ t) = some (b, t) := by
  simp [frame, unframe]

theorem bytesStr_strBytes (s : String) : bytesStr (strBytes s) = s := by
  simp [bytesStr, strBytes, List.map_map]
  cases s with
  | mk data =>
    congr 1
    induction data with
    | nil => rfl
    | cons c cs ih => simp [Char.ofNat_toNat, ih]

theorem unframe_frame_nil (b : Bytes) : unframe (frame b) = some (b, []) := by
  have := unframe_frame b []
  simpa using this

theorem decStr_encStr (s : String) (t : Bytes) : decStr (encStr s ++ t) = some (s, t) := by
  simp [decStr, encStr, unframe_frame, bytesStr_strBytes]

theorem xorStream_xorStream (key : Bytes) (i : Nat) (b : Bytes) :
    xorStream key i (xorStream key i b) = b := by
  induction b generalizing i with
  | nil => rfl
  | cons x xs ih =>
    simp [xorStream, ih, Nat.xor_assoc, Nat.xor_self, Nat.xor_zero]

theorem parseJws_encodeJws (p : JwsParts) : parseJws (encodeJws p) = some p := by
  obtain ⟨⟨alg, kid, clientid⟩, payload, sig⟩ := p
  simp [encodeJws, parseJws, signingInput, encodeJwsHeader, List.append_assoc,
    decStr_encStr, unframe_frame, unframe_frame_nil, Option.bind]

theorem parseJwe_encodeJwe (p : JweParts) : parseJwe (encodeJwe p) = some p := by
  obtain ⟨⟨alg, enc, kid, clientid⟩, ciphertext, tag⟩ := p
  simp [encodeJwe, parseJwe, encodeJweHeader, List.append_assoc,
    decStr_encStr, unframe_frame, unframe_frame_nil, Option.bind]

theorem jwsVerifyCore_jwsSignCore (key : Bytes) (h : JwsHeader) (payload : Bytes) :
    jwsVerifyCore key (jwsSignCore key h payload) = some payload := by
  simp [jwsVerifyCore, jwsSignCore, parseJws_encodeJws]

theorem jweDecryptCore_jweEncryptCore (key : Bytes) (h : JweHeader) (plain : Bytes) :
    jweDecryptCore key (jweEncryptCore key h plain) = some plain := by
  simp [jweDecryptCore, jweEncryptCore, parseJwe_encodeJwe, xorStream_xorStream]

end BillDesk

namespace BillDesk

theorem xor_two_pow_ne (d j : Nat) : d ^^^ 2 ^ j ≠ d := by
  intro h
  have h1 := congrArg (fun x => d ^^^ x) h
  simp only [← Nat.xor_assoc, Nat.xor_self, Nat.zero_xor] at h1
  have h2 : 0 < 2 ^ j := Nat.pos_pow_of_pos j (by omega)
  omega

theorem flipBit_hmacSig_ne (key msg : Bytes) (j : Nat) :
    flipBit (hmacSig key msg) j ≠ hmacSig key msg := by
  simp only [flipBit, hmacSig, ne_eq, List.cons.injEq, and_true]
  exact xor_two_pow_ne _ j

theorem validate_of_amountInvalid (o : OrderDoc) (h : amountInvalid o = true) :
    validateOrderData o = .error "Invalid order amount" := by
  revert h
  unfold validateOrderData amountInvalid
  cases selectedAmount o with
  | none => intro h; rfl
  | some v =>
    intro h
    simp only [decide_eq_true_eq] at h
    simp [h]

theorem validate_of_amountExceeds (o : OrderDoc) (h1 : amountInvalid o = false)
    (h2 : amountExceeds o = true) :
    validateOrderData o = .error "Order amount exceeds maximum limit" := by
  revert h1 h2
  unfold validateOrderData amountInvalid amountExceeds
  cases selectedAmount o with
  | none => intro h1 h2; cases h2
  | some v =>
    intro h1 h2
    simp only [decide_eq_true_eq, decide_eq_false_iff_not] at h1 h2
    simp [h1, h2]

theorem handleCreateResponse_effs (cfg : Config) (resp : GatewayResponse) (txn : TxnDoc)
    (store : Store) (onum tid : String) :
    (Official.handleCreateResponse cfg resp txn store onum tid).2.2 = [] ∨
    ∃ t2, (Official.handleCreateResponse cfg resp txn store onum tid).2.2 = [Eff.txnSave t2] := by
  unfold Official.handleCreateResponse
  repeat' split
  all_goals simp
  all_goals repeat' split
  all_goals simp

end BillDesk

namespace BillDesk

set_option maxRecDepth 100000 in
/-- C1: the claim says a Transaction whose stored status is terminal is not
reverted to pending by a later processResponse reporting an intermediate
gateway status. The code has no such guard: at this input the stored
`success` status is overwritten with `pending`. -/
theorem c1_terminal_status_reverted_to_pending :
    (findByOrderNumber storeTerminal "ORD-1").map (fun t => t.status) = some "success" ∧
    (Svc.processResponse cfg0 storeTerminal 50 (.objD payloadPending)).1.status = some "pending" ∧
    (findByOrderNumber (Svc.processResponse cfg0 storeTerminal 50 (.objD payloadPending)).2
      "ORD-1").map (fun t => t.status) = some "pending" := by
  decide

set_option maxRecDepth 100000 in
/-- C2: the claim says processResponse never propagates an exception. In the
official variant the field check requires only merchantid and orderid, so a
payload missing the status field but naming an existing pending Transaction
reaches status.toUpperCase() and throws a TypeError to the caller. -/
theorem c2_missing_status_field_throws :
    Official.processResponse cfg0 storePending 50 (.objD payloadNoStatus) =
      (.error "TypeError: Cannot read properties of undefined (reading toUpperCase)",
        storePending) := by
  decide

set_option maxRecDepth 100000 in
/-- C7: happy-path webhook reconciliation: a verifiable, decryptable envelope
reporting SUCCESS for the pending Transaction on ORD-1 yields success=true,
status success, orderNumber ORD-1, the stored row id, and the persisted
status becomes success. -/
theorem c7_success_webhook_reconciliation :
    Svc.processResponse cfg0 storePending 50 (.strD envC7) =
      (⟨true, "Payment success", some "success", some 1, some "ORD-1", none⟩,
        ⟨[{ txnPending with
            status := "success"
            billDeskTxnId := some "T1"
            responseAt := some 50 }], 2⟩) ∧
    (findByOrderNumber (Svc.processResponse cfg0 storePending 50 (.strD envC7)).2
      "ORD-1").map (fun t => t.status) = some "success" := by
  decide

set_option maxRecDepth 100000 in
/-- C6 counterexample: the claim describes the verify step as trying the real
key id first and the sentinel second, in explicit priority order; such a
verifier rejects an envelope whose header carries any other key id. The
source verify accepts this envelope (it never compares the key id), so the
two differ at this input. -/
theorem c6_counterexample_kid_never_compared :
    Official.verify envWeirdKid cfg0.signingPassword cfg0.keyId =
      some (Official.encrypt (encodeBd errPayload) cfg0.clientId cfg0.encryptionPassword
        cfg0.keyId) ∧
    verifyTryRealThenSentinel cfg0 envWeirdKid = none := by
  decide

set_option maxRecDepth 100000 in
/-- C6 amended: a non-success HTTP response signed under the sentinel key id
"HMAC" still verifies (the verify step recomputes the tag with the configured
signing key and never compares the envelope key id, so it tolerates the
sentinel and any other id alike); decryption uses the real key id, and the
decrypted error message is surfaced in the error thrown to the caller. -/
theorem c6_sentinel_error_message_surfaced :
    Official.verify envSentinel cfg0.signingPassword cfg0.keyId =
      some (Official.encrypt (encodeBd errPayload) cfg0.clientId cfg0.encryptionPassword
        cfg0.keyId) ∧
    (Official.createPaymentRequest cfg0 [] store0 [] 5 resp422 orderOk "1.2.3.4").1 =
      .error "BillDesk API call failed: BillDesk Error: Invalid mercid (VALIDATION)" := by
  decide

set_option maxRecDepth 100000 in
/-- C3 counterexample: for an order with a negative amount under an exhausted
admission window, createPaymentRequest fails with the rate-limit error, not
the claimed validation error (the rate limit is checked first). -/
theorem c3_counterexample_rate_limited_invalid_order :
    (Official.createPaymentRequest cfg0 [] store0 rlFullO1 100000 resp422 orderNegAmount
      "1.2.3.4").1 = .error "Too many payment requests. Please try again later." ∧
    (Except.error "Too many payment requests. Please try again later." :
      Except String CreateResult) ≠ .error "Invalid order amount" := by
  decide

set_option maxRecDepth 100000 in
/-- C8 counterexample: with the admission quota exhausted, an order failing
validation gets the rate-limit error rather than the claimed validation
error; and with one slot left, the order that then fails validation has
still consumed the slot (the current time is appended to the window). -/
theorem c8_counterexample_validation_not_first :
    (Official.createPaymentRequest cfg0 [] store0 rlFullO8 100000 resp422 orderZeroFinal
      "1.2.3.4").1 = .error "Too many payment requests. Please try again later." ∧
    (Official.createPaymentRequest cfg0 [] store0 rlFourO8 100000 resp422 orderZeroFinal
      "1.2.3.4").1 = .error "Invalid order amount" ∧
    (Official.createPaymentRequest cfg0 [] store0 rlFourO8 100000 resp422 orderZeroFinal
      "1.2.3.4").2.2.1 = [("O8-1.2.3.4", [99900, 99901, 99902, 99903, 100000])] := by
  decide

/-- C9: the rate limiter prunes entries older than the 60 second window,
admits exactly when the remaining count is below the cap of 5, appends the
current time on admission and leaves the map untouched on rejection; in the
concrete scenario of six checks for a fresh identifier spaced 100 ms apart,
the first five are admitted and the sixth rejected. -/
theorem c9_sliding_window_admission :
    (∀ (m : RLMap) (identifier : String) (now : Nat),
      checkRateLimit m identifier now =
        (if ((rlGet m identifier).filter
              (fun time => now - time < RATE_LIMIT_WINDOW)).length <
            MAX_REQUESTS_PER_WINDOW then
          (true, rlSet m identifier
            ((rlGet m identifier).filter (fun time => now - time < RATE_LIMIT_WINDOW) ++ [now]))
        else (false, m))) ∧
    admitSeq [] "orderA-1.2.3.4" [100000, 100100, 100200, 100300, 100400, 100500] =
      [true, true, true, true, true, false] := by
  constructor
  · intro m identifier now
    unfold checkRateLimit
    by_cases h : MAX_REQUESTS_PER_WINDOW ≤
        ((rlGet m identifier).filter (fun time => now - time < RATE_LIMIT_WINDOW)).length
    · rw [if_pos h, if_neg (Nat.not_lt.mpr h)]
    · rw [if_neg h, if_pos (Nat.not_le.mp h)]
  · decide

end BillDesk

namespace BillDesk

theorem selectedAmount_eq_specFirstTruthy_aux (o : OrderDoc) :
    selectedAmount o = specFirstTruthy o := by
  unfold selectedAmount specFirstTruthy jsOrI truthyI
  cases o.finalAmount with
  | none =>
    cases o.totalAmount with
    | none => rfl
    | some w => by_cases hw : w == 0 <;> simp [hw]
  | some u =>
    by_cases hu : u == 0 <;>
      cases o.totalAmount with
      | none => simp [hu]
      | some w => by_cases hw : w == 0 <;> simp [hu, hw]

theorem checkRateLimit_admitted_snd (mm : RLMap) (k : String) (now : Nat)
    (h : (checkRateLimit mm k now).1 = true) :
    (checkRateLimit mm k now).2 =
      rlSet mm k ((rlGet mm k).filter (fun time => now - time < RATE_LIMIT_WINDOW) ++ [now]) := by
  by_cases h2 : MAX_REQUESTS_PER_WINDOW ≤
      ((rlGet mm k).filter (fun time => now - time < RATE_LIMIT_WINDOW)).length
  · exfalso
    simp [checkRateLimit, h2] at h
  · simp [checkRateLimit, h2]

theorem handleCreateResponse_no_network (cfg : Config) (resp : GatewayResponse)
    (txn : TxnDoc) (store : Store) (onum tid : String) (n : Nat) (url : String)
    (body : Bytes) :
    (Official.handleCreateResponse cfg resp txn store onum tid).2.2.get? n ≠
      some (Eff.network url body) := by
  rcases handleCreateResponse_effs cfg resp txn store onum tid with h | ⟨t2, h⟩ <;>
    rw [h] <;> rcases n with _ | m <;> simp

/-- C5: crypto envelope round trip: for every plaintext and fixed key
material, verify-then-decrypt of encrypt-then-sign returns the plaintext
(the verify step alone succeeds, returning the inner encrypted JWE), while
verification of the same envelope with a single bit of its signature
segment flipped fails rather than yielding a payload. -/
theorem c5_envelope_roundtrip_and_bitflip (P : Bytes) (cid ek ekid sk skid : String)
    (j : Nat) :
    Official.verifyAndDecrypt (Official.encryptAndSign P cid ek ekid sk skid)
      ek ekid sk skid = some P ∧
    Official.verify (Official.encryptAndSign P cid ek ekid sk skid) sk skid =
      some (Official.encrypt P cid ek ekid) ∧
    Official.verify (tamperSigBit (Official.encryptAndSign P cid ek ekid sk skid) j)
      sk skid = none := by
  refine ⟨?_, ?_, ?_⟩
  · simp [Official.verifyAndDecrypt, Official.encryptAndSign, Official.verify,
      Official.sign, Official.encrypt, Official.decrypt, jwsVerifyCore_jwsSignCore,
      jweDecryptCore_jweEncryptCore]
  · simp [Official.encryptAndSign, Official.verify, Official.sign, jwsVerifyCore_jwsSignCore]
  · simp [Official.encryptAndSign, Official.verify, Official.sign, tamperSigBit,
      jwsSignCore, parseJws_encodeJws, jwsVerifyCore, flipBit_hmacSig_ne]

/-- C4: every execution of createPaymentRequest that reaches the outbound
gateway call has already persisted a pending Transaction row keyed by the
order reference at an earlier position of the effect trace; the network
call never precedes that save. -/
theorem c4_pending_row_persisted_before_network (cfg : Config)
    (users : List (String × String)) (store : Store) (rl : RLMap) (now : Nat)
    (resp : GatewayResponse) (order : OrderDoc) (clientIp url : String) (body : Bytes)
    (i : Nat)
    (hi : (Official.createPaymentRequest cfg users store rl now resp
      order clientIp).2.2.2.get? i = some (Eff.network url body)) :
    ∃ j t, j < i ∧
      (Official.createPaymentRequest cfg users store rl now resp
        order clientIp).2.2.2.get? j = some (Eff.txnSave t) ∧
      t.status = "pending" ∧ t.orderNumber = resolvedOrderNumber order now := by
  by_cases hrl : (checkRateLimit rl (jsShowId order._id ++ "-" ++ clientIp) now).1 = true
  · cases hval : validateOrderData order with
    | error m =>
      simp [Official.createPaymentRequest, hrl, hval] at hi
    | ok _ =>
      simp only [Official.createPaymentRequest, hrl, hval] at hi ⊢
      simp only [Bool.not_true, Bool.false_eq_true, if_false] at hi ⊢
      rcases i with _ | _ | n
      · simp at hi
      · exact ⟨0, _, Nat.zero_lt_one, rfl, rfl, rfl⟩
      · exfalso
        simp only [List.get?_cons_succ] at hi
        exact handleCreateResponse_no_network _ _ _ _ _ _ _ _ _ hi
  · simp only [Bool.not_eq_true] at hrl
    simp [Official.createPaymentRequest, hrl] at hi

end BillDesk

namespace BillDesk

set_option maxRecDepth 100000 in
/-- C4 witness: a concrete run reaching the gateway call, with the pending
row save at the preceding trace position. -/
theorem c4_pending_row_persisted_before_network_witness :
    ∃ j t, j < 1 ∧
      (Official.createPaymentRequest cfg0 [] store0 [] 5 respOk
        orderOk "1.2.3.4").2.2.2.get? j = some (Eff.txnSave t) ∧
      t.status = "pending" ∧ t.orderNumber = resolvedOrderNumber orderOk 5 :=
  c4_pending_row_persisted_before_network cfg0 [] store0 [] 5 respOk orderOk "1.2.3.4"
    "https://pay" bodyC4 1 (by decide)

/-- C3 amended: for an order whose selected amount is invalid or exceeds the
ceiling, createPaymentRequest persists no Transaction row and issues no
network call; when the rate limiter admits the orderId-clientIp key it
fails with the corresponding distinguishable validation error (when the
window is already exhausted the rate-limit error is raised instead, and the
admission window itself may be updated before the validation error). -/
theorem c3_invalid_amount_fails_without_persistence_or_network (cfg : Config)
    (users : List (String × String)) (store : Store) (rl : RLMap) (now : Nat)
    (resp : GatewayResponse) (order : OrderDoc) (clientIp : String) :
    (amountInvalid order = true →
      (Official.createPaymentRequest cfg users store rl now resp order clientIp).2.1 = store ∧
      (Official.createPaymentRequest cfg users store rl now resp order clientIp).2.2.2 = [] ∧
      ((checkRateLimit rl (jsShowId order._id ++ "-" ++ clientIp) now).1 = true →
        (Official.createPaymentRequest cfg users store rl now resp order clientIp).1 =
          .error "Invalid order amount")) ∧
    (amountInvalid order = false → amountExceeds order = true →
      (Official.createPaymentRequest cfg users store rl now resp order clientIp).2.1 = store ∧
      (Official.createPaymentRequest cfg users store rl now resp order clientIp).2.2.2 = [] ∧
      ((checkRateLimit rl (jsShowId order._id ++ "-" ++ clientIp) now).1 = true →
        (Official.createPaymentRequest cfg users store rl now resp order clientIp).1 =
          .error "Order amount exceeds maximum limit")) := by
  constructor
  · intro h
    have hv := validate_of_amountInvalid order h
    by_cases hrl : (checkRateLimit rl (jsShowId order._id ++ "-" ++ clientIp) now).1 = true
    · refine ⟨?_, ?_, fun _ => ?_⟩ <;> simp [Official.createPaymentRequest, hrl, hv]
    · simp only [Bool.not_eq_true] at hrl
      refine ⟨?_, ?_, fun hc => ?_⟩
      · simp [Official.createPaymentRequest, hrl]
      · simp [Official.createPaymentRequest, hrl]
      · rw [hrl] at hc; cases hc
  · intro h1 h2
    have hv := validate_of_amountExceeds order h1 h2
    by_cases hrl : (checkRateLimit rl (jsShowId order._id ++ "-" ++ clientIp) now).1 = true
    · refine ⟨?_, ?_, fun _ => ?_⟩ <;> simp [Official.createPaymentRequest, hrl, hv]
    · simp only [Bool.not_eq_true] at hrl
      refine ⟨?_, ?_, fun hc => ?_⟩
      · simp [Official.createPaymentRequest, hrl]
      · simp [Official.createPaymentRequest, hrl]
      · rw [hrl] at hc; cases hc

set_option maxRecDepth 100000 in
/-- C3 witness: with a fresh window, the order with a negative amount gets
the invalid-amount error and no persistence or network effect. -/
theorem c3_invalid_amount_witness :
    (Official.createPaymentRequest cfg0 [] store0 [] 7 resp422 orderNegAmount "1.2.3.4").1 =
      .error "Invalid order amount" ∧
    (Official.createPaymentRequest cfg0 [] store0 [] 7 resp422 orderNegAmount "1.2.3.4").2.2.2 =
      [] :=
  ⟨((c3_invalid_amount_fails_without_persistence_or_network cfg0 [] store0 [] 7 resp422
      orderNegAmount "1.2.3.4").1 (by decide)).2.2 (by decide),
    ((c3_invalid_amount_fails_without_persistence_or_network cfg0 [] store0 [] 7 resp422
      orderNegAmount "1.2.3.4").1 (by decide)).2.1⟩

/-- C8 amended: the rate-limit admission check runs before order validation:
when the key is not admitted, createPaymentRequest fails with the rate-limit
error whatever the order contents; when it is admitted and validation then
fails, the validation error is raised but the admission slot has already
been consumed (the pruned window with the current time appended is stored). -/
theorem c8_rate_limit_admission_precedes_validation (cfg : Config)
    (users : List (String × String)) (store : Store) (rl : RLMap) (now : Nat)
    (resp : GatewayResponse) (order : OrderDoc) (clientIp m : String) :
    ((checkRateLimit rl (jsShowId order._id ++ "-" ++ clientIp) now).1 = false →
      (Official.createPaymentRequest cfg users store rl now resp order clientIp).1 =
        .error "Too many payment requests. Please try again later.") ∧
    ((checkRateLimit rl (jsShowId order._id ++ "-" ++ clientIp) now).1 = true →
      validateOrderData order = .error m →
      (Official.createPaymentRequest cfg users store rl now resp order clientIp).1 =
        .error m ∧
      (Official.createPaymentRequest cfg users store rl now resp order clientIp).2.2.1 =
        rlSet rl (jsShowId order._id ++ "-" ++ clientIp)
          ((rlGet rl (jsShowId order._id ++ "-" ++ clientIp)).filter
            (fun time => now - time < RATE_LIMIT_WINDOW) ++ [now])) := by
  constructor
  · intro h
    simp [Official.createPaymentRequest, h]
  · intro h hv
    have h2 := checkRateLimit_admitted_snd rl (jsShowId order._id ++ "-" ++ clientIp) now h
    constructor
    · simp [Official.createPaymentRequest, h, hv]
    · rw [← h2]
      simp [Official.createPaymentRequest, h, hv]

set_option maxRecDepth 100000 in
/-- C8 witness: exhausted window plus invalid order yields the rate-limit
error. -/
theorem c8_rate_limit_first_witness :
    (Official.createPaymentRequest cfg0 [] store0 rlFullO8 100000 resp422 orderZeroFinal
      "1.2.3.4").1 = .error "Too many payment requests. Please try again later." :=
  (c8_rate_limit_admission_precedes_validation cfg0 [] store0 rlFullO8 100000 resp422
    orderZeroFinal "1.2.3.4" "Invalid order amount").1 (by decide)

set_option maxHeartbeats 1000000 in
/-- C10: the amount validated and serialized is the first truthy of
finalAmount, totalAmount, amount; when finalAmount is 0 or absent and
totalAmount holds a valid positive value, the order is not rejected, the
fallback value is the selected amount, and a run that passes admission
persists a pending row charging that value and sends a payload whose amount
field serializes it. -/
theorem c10_first_truthy_amount_selected_and_charged (o : OrderDoc) (v : Int)
    (hf : o.finalAmount = none ∨ o.finalAmount = some 0)
    (ht : o.totalAmount = some v) (hpos : 0 < v) (hle : v ≤ 1000000)
    (hid : truthyS o._id = true) :
    (∀ o2 : OrderDoc, selectedAmount o2 = specFirstTruthy o2) ∧
    selectedAmount o = some v ∧
    validateOrderData o = Except.ok () ∧
    (∀ (cfg : Config) (users : List (String × String)) (store : Store) (rl : RLMap)
        (now : Nat) (resp : GatewayResponse) (clientIp : String),
      (checkRateLimit rl (jsShowId o._id ++ "-" ++ clientIp) now).1 = true →
      ∃ t rest,
        (Official.createPaymentRequest cfg users store rl now resp o clientIp).2.2.2 =
          Eff.txnSave t ::
            Eff.network cfg.paymentUrl
              (Official.encryptAndSign
                (encodePayReq (buildJsonRequest cfg (resolvedOrderNumber o now) v
                  (Official.resolvedEmail users o) clientIp now))
                cfg.clientId cfg.encryptionPassword cfg.keyId cfg.signingPassword cfg.keyId) ::
            rest ∧
        t.amount = v ∧ t.status = "pending") := by
  have hv0 : ¬(v = 0) := by omega
  have hsel : selectedAmount o = some v := by
    rcases hf with h | h <;> simp [selectedAmount, jsOrI, h, ht, hv0]
  have hval : validateOrderData o = Except.ok () := by
    simp only [validateOrderData, hsel]
    rw [if_neg (show ¬(v ≤ 0) by omega), if_neg (show ¬(v > 1000000) by omega)]
    simp [hid]
  refine ⟨selectedAmount_eq_specFirstTruthy_aux, hsel, hval, ?_⟩
  intro cfg users store rl now resp clientIp hadm
  simp only [Official.createPaymentRequest, hadm, hval]
  simp only [Bool.not_true, Bool.false_eq_true, if_false, hsel, Option.getD_some]
  exact ⟨_, _, rfl, rfl, rfl⟩

/-- C10 witness: an order with finalAmount absent and totalAmount 250 is
selected at 250 and passes validation. -/
theorem c10_first_truthy_amount_witness :
    selectedAmount orderFallback = some 250 ∧
    validateOrderData orderFallback = Except.ok () :=
  ⟨(c10_first_truthy_amount_selected_and_charged orderFallback 250 (Or.inl rfl) rfl
      (by decide) (by decide) (by decide)).2.1,
    (c10_first_truthy_amount_selected_and_charged orderFallback 250 (Or.inl rfl) rfl
      (by decide) (by decide) (by decide)).2.2.1⟩

end BillDesk
